import Mathlib

/-
Shallow embedding of the configuration generator of `src/app/utils/config-builder.js`
(the `ConfigBuilder` module of the iot-client repository).

Conventions of the embedding:
* JavaScript values that flow through the generator are modelled by `JsVal`.
* Q promises are modelled by their final disposition `POutcome`: a promise either
  resolves, rejects, or — when no handler ever settles the deferred — stays
  pending forever.
* Node-style callback results (`macaddress.one`, `fs.readFile`, `fs.stat`,
  `fs.writeFile`) are inputs of the run functions: each run function takes the
  result the environment would deliver and returns the disposition of the
  promise the source function returns, together with the list of
  `fs.writeFile(path, data)` invocations it performs.
* `GLOBAL.config.*` values and `os.platform()` are parameters.
-/

/-- Model of the JavaScript values manipulated by the module: `undefined`,
`null`, booleans, numbers (integral here; no float arithmetic occurs in the
module), strings, arrays and plain objects (ordered key/value lists, matching
JS property-insertion order). -/
inductive JsVal where
  | jsUndefined : JsVal
  | jsNull : JsVal
  | bool : Bool → JsVal
  | num : Int → JsVal
  | str : String → JsVal
  | arr : List JsVal → JsVal
  | obj : List (String × JsVal) → JsVal
deriving Repr

/-- JavaScript `typeof` on the modelled values (`typeof null === "object"`,
arrays and plain objects are both `"object"`). -/
def jsTypeof : JsVal → String
  | .jsUndefined => "undefined"
  | .jsNull => "object"
  | .bool _ => "boolean"
  | .num _ => "number"
  | .str _ => "string"
  | .arr _ => "object"
  | .obj _ => "object"

/-- JavaScript truthiness of the modelled values. -/
def jsTruthy : JsVal → Bool
  | .jsUndefined => false
  | .jsNull => false
  | .bool b => b
  | .num n => n != 0
  | .str s => s != ""
  | .arr _ => true
  | .obj _ => true

/-- Property lookup on an ordered field list: the first binding of the key
wins; a missing key yields `undefined`. -/
def jsGetFields (k : String) : List (String × JsVal) → JsVal
  | [] => .jsUndefined
  | (k2, v) :: rest => if k2 = k then v else jsGetFields k rest

/-- JavaScript property access `v[k]`: `undefined` on non-objects (primitive
property access yields `undefined`; the `null`/`undefined` TypeError case is
handled explicitly at its one use site in the gateway-agent pipeline). -/
def jsGet (v : JsVal) (k : String) : JsVal :=
  match v with
  | .obj fs => jsGetFields k fs
  | _ => .jsUndefined

/-- The keys of an object value, in property order. -/
def objKeys : JsVal → List String
  | .obj fs => fs.map (fun p => p.1)
  | _ => []

/-- Hexadecimal digit characters, the character class a MAC-address octet is
drawn from. -/
def isHexDigit (c : Char) : Bool :=
  c == '0' || c == '1' || c == '2' || c == '3' || c == '4' ||
  c == '5' || c == '6' || c == '7' || c == '8' || c == '9' ||
  c == 'a' || c == 'b' || c == 'c' || c == 'd' || c == 'e' || c == 'f' ||
  c == 'A' || c == 'B' || c == 'C' || c == 'D' || c == 'E' || c == 'F'

/-- Uppercase hexadecimal digit characters (digits and `A`–`F`). -/
def isUpperHexDigit (c : Char) : Bool :=
  c == '0' || c == '1' || c == '2' || c == '3' || c == '4' ||
  c == '5' || c == '6' || c == '7' || c == '8' || c == '9' ||
  c == 'A' || c == 'B' || c == 'C' || c == 'D' || c == 'E' || c == 'F'

/-- Model of `mac.replace(/:/g, '')`: drop every colon character. -/
def removeColons (m : String) : String :=
  ⟨m.data.filter (fun c => c != ':')⟩

/-- Model of `String.prototype.toUpperCase` restricted to the ASCII range the
module handles (hex digits and separators). -/
def jsToUpperCase (s : String) : String :=
  ⟨s.data.map Char.toUpper⟩

/-- Model of `String.prototype.toLowerCase` restricted to the ASCII range the
module handles. -/
def jsToLowerCase (s : String) : String :=
  ⟨s.data.map Char.toLower⟩

/-- The normalization applied to a MAC address string inside `_getGatewayId`:
`mac.replace(/:/g, '').toUpperCase()`. -/
def normalizeMac (m : String) : String :=
  jsToUpperCase (removeColons m)

/-- A well-formed 6-octet colon-separated MAC address: twelve hexadecimal
digits in colon-separated pairs. -/
def ValidMac (m : String) : Prop :=
  ∃ a1 a2 b1 b2 c1 c2 d1 d2 e1 e2 f1 f2 : Char,
    [a1, a2, b1, b2, c1, c2, d1, d2, e1, e2, f1, f2].all isHexDigit = true ∧
    m.data = [a1, a2, ':', b1, b2, ':', c1, c2, ':', d1, d2, ':', e1, e2, ':', f1, f2]

/-- The causes a promise of the module can be rejected with. The source
rejects with plain strings in most places, with the raw `fs` error object in
`_readExistingConfig`'s read branch, with the `SyntaxError` thrown by
`JSON.parse` in its parse branch (distinct from the read error), and with the
`TypeError` thrown when normalization is applied to a non-string MAC value. -/
inductive JsErr where
  | errStr : String → JsErr
  | readErr : String → JsErr
  | parseErr : String → JsErr
  | typeErr : String → JsErr
deriving Repr, DecidableEq

/-- Final disposition of a Q promise: resolved, rejected, or never settled
(pending forever, which is what happens when a deferred's only settling
handler is attached to a promise that rejects). -/
inductive POutcome (α : Type) where
  | resolved : α → POutcome α
  | rejected : JsErr → POutcome α
  | pending : POutcome α
deriving Repr, DecidableEq

/-- The observable result of one `_getGatewayId` call: the disposition of the
returned promise, the value of `this._gatewayId` after the call, and whether
`macaddress.one` was invoked. -/
structure GatewayIdResult where
  outcome : POutcome String
  cache : Option String
  lookedUp : Bool
deriving Repr, DecidableEq

/-- The rejection message built when `macaddress.one` reports an error. -/
def macLookupFailMessage (iface : String) : String :=
  "Unable to get mac address of outbound network interface: [" ++ iface ++ "]"

/-- The lookup branch of `_getGatewayId`: `macaddress.one` is invoked; on
callback error the promise is rejected with the formatted message and the
cache is untouched; a non-string `mac` value makes `mac.replace` throw inside
the `try`, rejecting with the exception and leaving the cache untouched; a
string `mac` is normalized, cached, and resolved. `macResult` is the
`(err, mac)` pair the callback receives: `Except.error` for a truthy `err`,
`Except.ok none` for a non-string `mac`, `Except.ok (some m)` for a string. -/
def getGatewayIdLookup (iface : String) (cache : Option String)
    (macResult : Except String (Option String)) : GatewayIdResult :=
  match macResult with
  | .error _ => ⟨.rejected (.errStr (macLookupFailMessage iface)), cache, true⟩
  | .ok none => ⟨.rejected (.typeErr "mac.replace is not a function"), cache, true⟩
  | .ok (some m) => ⟨.resolved (normalizeMac m), some (normalizeMac m), true⟩

/-- Model of `ConfigBuilder.prototype._getGatewayId`: `if (this._gatewayId)`
is a JS truthiness test, so only a nonempty cached string short-circuits the
hardware lookup (`null` initially, and the empty string, are falsy). -/
def getGatewayIdRun (iface : String) (cache : Option String)
    (macResult : Except String (Option String)) : GatewayIdResult :=
  match cache with
  | some s =>
    if s != "" then ⟨.resolved s, some s, false⟩
    else getGatewayIdLookup iface (some s) macResult
  | none => getGatewayIdLookup iface none macResult

/-- The configured values the `CONFIG_PATHS` table is built from when the
module is loaded: `GLOBAL.config.cfg_config_file`, and the value
`_path.resolve('./.tmp/hostapd.conf')` computed for the darwin hostapd entry
(it depends on the process working directory, so it is a parameter here). -/
structure PathConfig where
  cfgConfigFile : String
  darwinHostapd : String
deriving Repr, DecidableEq

/-- Model of the module-level `CONFIG_PATHS` table: per target, the
per-platform path entries. -/
def CONFIG_PATHS (pc : PathConfig) : List (String × List (String × String)) :=
  [("hostapd_conf",
      [("linux", "/etc/hostapd/hostapd.conf"), ("darwin", pc.darwinHostapd)]),
   ("gateway_agent_conf",
      [("linux", pc.cfgConfigFile), ("darwin", pc.cfgConfigFile)])]

/-- Model of `ConfigBuilder.prototype._getConfigPath`: look the target up in
`CONFIG_PATHS` (`undefined`, hence falsy, for an unknown target), then the
platform in the target's entry; both misses return `null` (modelled `none`).
The second `if (!configInfo)` is a JS truthiness test on the path string, so
an empty configured path is also treated as unmapped. Resolution is a pure
lookup and performs no filesystem access. -/
def getConfigPath (pc : PathConfig) (platform target : String) : Option String :=
  match (CONFIG_PATHS pc).find? (fun p => p.1 == target) with
  | none => none
  | some entry =>
    match entry.2.find? (fun p => p.1 == platform) with
    | none => none
    | some kv => if kv.2 = "" then none else some kv.2

/-- Model of Node's `path.parse(p).dir` for the POSIX paths the module uses:
everything before the final slash-separated component. -/
def pathDirname (p : String) : String :=
  String.intercalate "/" ((p.splitOn "/").dropLast)

/-- Model of `ConfigBuilder.prototype._ensureConfig` given the resolved path
(`cp = _getConfigPath(target)`) and the result of `fs.stat` on the parent
directory: a falsy path rejects with the platform message without touching the
filesystem; a stat error rejects with the directory message; otherwise the
promise resolves with the path. -/
def ensureConfigRun (cp : Option String) (statOk : Bool) : POutcome String :=
  match cp with
  | none => .rejected (.errStr "Config file is not applicable on current platform")
  | some p =>
    if statOk then .resolved p
    else .rejected (.errStr ("Unable to find directory: [" ++ pathDirname p ++ "]"))

/-- Model of `ConfigBuilder.prototype._writeConfig`. The source attaches only
a success handler to `this._ensureConfig(target).then(...)`, and only that
handler ever settles the deferred `def`: when `_ensureConfig` rejects, the
returned promise is never settled, so its disposition is `pending` — it is
not rejected. When the path is available, `fs.writeFile(path, data)` is
invoked (recorded in the write log); its callback rejects the deferred on
error (the unconditional `resolve()` that follows is a no-op because Q keeps
the first settlement) and resolves it on success. -/
def writeConfigRun (cp : Option String) (statOk writeOk : Bool) (data : String) :
    POutcome Unit × List (String × String) :=
  match ensureConfigRun cp statOk with
  | .resolved p =>
    if writeOk then (.resolved (), [(p, data)])
    else (.rejected (.errStr ("Error writing to file: [" ++ p ++ "]")), [(p, data)])
  | .rejected _ => (.pending, [])
  | .pending => (.pending, [])

/-- The line sequence built by `generateHostApConfig` for a resolved gateway
identity, exactly as the source array literal lists it. -/
def hostApConfigLines (gatewayId : String) : List String :=
  ["interface=wlan0",
   "",
   "ssid=" ++ gatewayId,
   "wpa_passphrase=" ++ jsToLowerCase gatewayId,
   "channel=6",
   "",
   "wmm_enabled=1",
   "wpa=1",
   "wpa_key_mgmt=WPA-PSK",
   "wpa_pairwise=TKIP",
   "rsn_pairwise=CCMP",
   "macaddr_acl=0",
   "auth_algs=1"]

/-- The text written for the hostapd target: `config.join('\n')`. -/
def hostApConfigText (gatewayId : String) : String :=
  String.intercalate "\n" (hostApConfigLines gatewayId)

/-- Model of `ConfigBuilder.prototype.generateHostApConfig`: resolve the
identity, build the line text, and return the chained `_writeConfig` promise
(this generator does return it); the final `.then(success, failure)` resolves
with `undefined` on success and rethrows the error on failure. Returns the
promise disposition, the cache after the call, whether the hardware lookup
ran, and the write log. -/
def generateHostApConfigRun (iface : String) (cache : Option String)
    (macResult : Except String (Option String)) (cp : Option String)
    (statOk writeOk : Bool) :
    POutcome Unit × Option String × Bool × List (String × String) :=
  let r := getGatewayIdRun iface cache macResult
  match r.outcome with
  | .rejected e => (.rejected e, r.cache, r.lookedUp, [])
  | .pending => (.pending, r.cache, r.lookedUp, [])
  | .resolved gid =>
    let w := writeConfigRun cp statOk writeOk (hostApConfigText gid)
    (match w.1 with
     | .resolved _ => .resolved ()
     | .rejected e => .rejected e
     | .pending => .pending,
     r.cache, r.lookedUp, w.2)

/-- JSON string escaping for the characters that can occur in the module's
outputs (quote, backslash, and the common control characters). -/
def jsEscapeChar (c : Char) : String :=
  if c = '"' then "\\\""
  else if c = '\\' then "\\\\"
  else if c = '\n' then "\\n"
  else if c = '\t' then "\\t"
  else if c = '\r' then "\\r"
  else String.singleton c

/-- A JSON-quoted string literal. -/
def jsQuote (s : String) : String :=
  "\"" ++ String.join (s.data.map jsEscapeChar) ++ "\""

mutual

/-- Model of `JSON.stringify(v, null, gap)` at indentation `ind`: `none` when
the value serializes to nothing (`undefined`). -/
def jsonRender (gap ind : String) : JsVal → Option String
  | .jsUndefined => none
  | .jsNull => some "null"
  | .bool b => some (if b then "true" else "false")
  | .num n => some (toString n)
  | .str s => some (jsQuote s)
  | .arr xs => some (jsonRenderArr gap ind xs)
  | .obj fs => some (jsonRenderObj gap ind fs)

/-- Array rendering: `undefined` elements print as `null`; with a nonempty
gap, elements sit on their own lines one indent level deeper. -/
def jsonRenderArr (gap ind : String) (xs : List JsVal) : String :=
  let items := jsonRenderElems gap (ind ++ gap) xs
  if items.isEmpty then "[]"
  else if gap = "" then "[" ++ String.intercalate "," items ++ "]"
  else "[\n" ++ ind ++ gap ++ String.intercalate (",\n" ++ ind ++ gap) items ++
       "\n" ++ ind ++ "]"

/-- Object rendering: entries whose value serializes to nothing
(`undefined`-valued properties) are omitted, exactly as `JSON.stringify`
omits them. -/
def jsonRenderObj (gap ind : String) (fs : List (String × JsVal)) : String :=
  let items := jsonRenderItems gap (ind ++ gap) fs
  if items.isEmpty then "\x7b\x7d"
  else if gap = "" then "\x7b" ++ String.intercalate "," items ++ "\x7d"
  else "\x7b\n" ++ ind ++ gap ++ String.intercalate (",\n" ++ ind ++ gap) items ++
       "\n" ++ ind ++ "\x7d"

/-- Rendered array elements, in order. -/
def jsonRenderElems (gap ind : String) : List JsVal → List String
  | [] => []
  | v :: rest =>
    (match jsonRender gap ind v with
     | none => "null"
     | some s => s) :: jsonRenderElems gap ind rest

/-- Rendered object entries, in order, skipping `undefined`-valued ones. -/
def jsonRenderItems (gap ind : String) : List (String × JsVal) → List String
  | [] => []
  | (k, v) :: rest =>
    match jsonRender gap ind v with
    | none => jsonRenderItems gap ind rest
    | some s => (jsQuote k ++ (if gap = "" then ":" else ": ") ++ s) :: jsonRenderItems gap ind rest

end

/-- Top-level `JSON.stringify(v, null, gap)`. -/
def jsonStringify (gap : String) (v : JsVal) : Option String :=
  jsonRender gap "" v

/-- The four-space gap produced by the indent argument `4` the source passes
to `JSON.stringify`. -/
def jsonGap4 : String := "    "

/-- Model of `ConfigBuilder.prototype._readExistingConfig` given the
`fs.readFile` result and the behavior of `JSON.parse` on the content
(`parse c = none` models `JSON.parse` throwing a `SyntaxError` on `c`): a
read error rejects with the raw error; with `parseAsJson` set, a parse
failure rejects with the parse exception — a distinct cause from the read
error; otherwise the promise resolves with the parsed value (or the raw
content when parsing was not requested). -/
def readExistingConfigRun (parse : String → Option JsVal)
    (readResult : Except String String) (parseAsJson : Bool) : POutcome JsVal :=
  match readResult with
  | .error e => .rejected (.readErr e)
  | .ok content =>
    if parseAsJson then
      match parse content with
      | some v => .resolved v
      | none => .rejected (.parseErr content)
    else .resolved (.str content)

/-- The `newConfig` object literal `generateGatewayAgentConfig` builds from
the parsed baseline and the resolved identity, with the exact key insertion
order of the source (`connectorTypes`, `deviceConnectors`, `cloudConnectors`;
the named connector entries are added after the literal, into the already
present empty objects). -/
def buildGatewayAgentConfig (baseline : JsVal) (gatewayId host iface : String) : JsVal :=
  .obj
    [("connectorTypes", jsGet baseline "connectorTypes"),
     ("deviceConnectors", .obj
        [(gatewayId ++ "-cnc-gateway", .obj
            [("type", .str "CncGateway"),
             ("config", .obj [])])]),
     ("cloudConnectors", .obj
        [(gatewayId ++ "-cnc-cloud", .obj
            [("type", .str "CncCloud"),
             ("config", .obj
                [("host", .str host),
                 ("port", .num 1883),
                 ("protocol", .str "mqtt"),
                 ("account", .str gatewayId),
                 ("networkInterface", .str iface),
                 ("gatewayname", .str gatewayId),
                 ("topics", .str "")])])])]

/-- The serialized payload `JSON.stringify(config, null, 4)` the pipeline
hands to `_writeConfig` (the built value is an object, so serialization
always yields a string; `getD` only discharges the `Option`). -/
def gatewayAgentPayload (baseline : JsVal) (gatewayId host iface : String) : String :=
  (jsonStringify jsonGap4 (buildGatewayAgentConfig baseline gatewayId host iface)).getD ""

/-- Model of `ConfigBuilder.prototype.generateGatewayAgentConfig`. Faithful
points: a rejection from identity resolution or from the baseline
read/parse skips every later success handler and reaches the final
`.then(success, failure)` failure handler, which rethrows, so the returned
promise rejects with the original cause and no write happens. A `null` (or
`undefined`) parsed baseline makes `config.connectorTypes` throw a
`TypeError` inside the handler, rejecting the chain. Otherwise the config is
built and serialized and `this._writeConfig(...)` is invoked — but its
promise is NOT returned from the `.then` handler (the source line lacks a
`return`), so the stage resolves with `undefined` immediately: the overall
promise resolves regardless of how the write turns out, and only the write
log records what `_writeConfig` did. -/
def generateGatewayAgentConfigRun (parse : String → Option JsVal)
    (iface : String) (cache : Option String)
    (macResult : Except String (Option String))
    (readResult : Except String String) (cp : Option String)
    (statOk writeOk : Bool) (host localIface : String) :
    POutcome Unit × List (String × String) :=
  let r := getGatewayIdRun iface cache macResult
  match r.outcome with
  | .rejected e => (.rejected e, [])
  | .pending => (.pending, [])
  | .resolved gid =>
    match readExistingConfigRun parse readResult true with
    | .rejected e => (.rejected e, [])
    | .pending => (.pending, [])
    | .resolved baseline =>
      match baseline with
      | .jsNull =>
        (.rejected (.typeErr "Cannot read property connectorTypes of null"), [])
      | .jsUndefined =>
        (.rejected (.typeErr "Cannot read property connectorTypes of undefined"), [])
      | b =>
        let payload := gatewayAgentPayload b gid host localIface
        let w := writeConfigRun cp statOk writeOk payload
        (.resolved (), w.2)

/-- The state a successfully constructed `ConfigBuilder` instance holds. -/
structure ConfigBuilderInstance where
  platform : String
  gatewayId : Option String
  localNetworkGatewayIP : String
deriving Repr, DecidableEq

/-- Model of the `ConfigBuilder` constructor: a falsy or non-object `logger`
throws synchronously; then `GLOBAL.config.cfg_local_network_gateway` must be
a string of positive length, else the constructor throws synchronously. Only
when both checks pass is an instance produced, with a `null` identity cache. -/
def configBuilderNew (logger gatewayAddr : JsVal) (platform : String) :
    Except String ConfigBuilderInstance :=
  if !(jsTruthy logger) || jsTypeof logger != "object" then
    .error "Invalid logger specified (arg #1)"
  else
    match gatewayAddr with
    | .str s =>
      if s.length ≤ 0 then
        .error ("Invalid local network gateway address specified: [" ++ s ++ "]")
      else
        .ok ⟨platform, none, s⟩
    | _ => .error "Invalid local network gateway address specified: [non-string value]"

theorem hexDigit_ne_colon {c : Char} (h : isHexDigit c = true) : (c != ':') = true := by
  simp only [isHexDigit, Bool.or_eq_true, beq_iff_eq, or_assoc] at h
  rcases h with rfl|rfl|rfl|rfl|rfl|rfl|rfl|rfl|rfl|rfl|rfl|rfl|rfl|rfl|rfl|rfl|rfl|rfl|rfl|rfl|rfl|rfl <;> decide

theorem hexDigit_toUpper {c : Char} (h : isHexDigit c = true) :
    isUpperHexDigit (Char.toUpper c) = true := by
  simp only [isHexDigit, Bool.or_eq_true, beq_iff_eq, or_assoc] at h
  rcases h with rfl|rfl|rfl|rfl|rfl|rfl|rfl|rfl|rfl|rfl|rfl|rfl|rfl|rfl|rfl|rfl|rfl|rfl|rfl|rfl|rfl|rfl <;> decide

theorem appended_line_ne_empty (s t : String) (h : 0 < s.length) : (s ++ t) != "" := by
  simp [bne_iff_ne]
  intro he
  have h2 := congrArg String.length he
  simp [String.length_append] at h2
  omega

/-- Claim C1 evidence (the claim fails on the code): with identity resolution,
baseline read and parse all succeeding but the file write failing, the promise
returned by `generateGatewayAgentConfig` still resolves — the write-stage
rejection does not reach the caller, because the handler does not return the
`_writeConfig` promise. Moreover `_writeConfig` itself, whose inner write
would reject (second conjunct), never settles at all when path resolution
returns the unsupported sentinel or the parent-directory stat fails (third
and fourth conjuncts): its returned promise is pending, not rejected, because
no failure handler is attached to `_ensureConfig`. This contradicts the
claim and the source's own doc comment ("A promise that will be rejected or
resolved based on the write operation"). -/
theorem gatewayAgent_failures_not_propagated :
    (generateGatewayAgentConfigRun (fun _ => some (.obj [("connectorTypes", .arr [])]))
        "eth0" none (.ok (some "aa:bb:cc:dd:ee:ff")) (.ok "baseline")
        (some "/etc/gateway/agent.json") true false "10.0.0.1" "wlan0").1 = .resolved () ∧
    (writeConfigRun (some "/etc/gateway/agent.json") true false "d").1 =
      .rejected (.errStr "Error writing to file: [/etc/gateway/agent.json]") ∧
    writeConfigRun none true true "d" = (.pending, []) ∧
    (writeConfigRun (some "/etc/gateway/agent.json") false true "d").1 = .pending := by
  refine ⟨rfl, ?_, ?_, ?_⟩ <;> decide

/-- Claim C2 counterexample: for the resolved identity `AABBCCDDEEFF` the
hostapd line sequence contains two blank separator lines, not exactly one as
the claim states. -/
theorem hostApConfig_one_blank_line_refuted :
    (hostApConfigLines "AABBCCDDEEFF").count "" = 2 ∧
    ¬ (hostApConfigLines "AABBCCDDEEFF").count "" = 1 := by
  decide

/-- Claim C2 as amended: for every resolved identity, `generateHostApConfig`
writes (to the resolved path) the newline-join of a fixed-order sequence of
exactly 13 lines, of which exactly two are blank separator lines, containing
exactly the lines `ssid=<identity>` and `wpa_passphrase=<lowercased identity>`
together with the fixed constants (channel 6, WPA-PSK key management,
TKIP/CCMP ciphers, open authentication). -/
theorem hostApConfig_content (m p : String) (writeOk : Bool) :
    (generateHostApConfigRun "eth0" none (.ok (some m)) (some p) true writeOk).2.2.2 =
      [(p, hostApConfigText (normalizeMac m))] ∧
    hostApConfigText (normalizeMac m) =
      String.intercalate "\n" (hostApConfigLines (normalizeMac m)) ∧
    (hostApConfigLines (normalizeMac m)).length = 13 ∧
    (hostApConfigLines (normalizeMac m)).count "" = 2 ∧
    ("ssid=" ++ normalizeMac m) ∈ hostApConfigLines (normalizeMac m) ∧
    ("wpa_passphrase=" ++ jsToLowerCase (normalizeMac m)) ∈ hostApConfigLines (normalizeMac m) ∧
    hostApConfigLines (normalizeMac m) =
      ["interface=wlan0", "", "ssid=" ++ normalizeMac m,
       "wpa_passphrase=" ++ jsToLowerCase (normalizeMac m), "channel=6", "",
       "wmm_enabled=1", "wpa=1", "wpa_key_mgmt=WPA-PSK", "wpa_pairwise=TKIP",
       "rsn_pairwise=CCMP", "macaddr_acl=0", "auth_algs=1"] := by
  refine ⟨?_, rfl, rfl, ?_, ?_, ?_, rfl⟩
  · cases writeOk <;>
      simp [generateHostApConfigRun, getGatewayIdRun, getGatewayIdLookup,
        writeConfigRun, ensureConfigRun]
  · have hs : ("ssid=" ++ normalizeMac m) != "" := appended_line_ne_empty _ _ (by decide)
    have hw : ("wpa_passphrase=" ++ jsToLowerCase (normalizeMac m)) != "" :=
      appended_line_ne_empty _ _ (by decide)
    simp only [bne_iff_ne, ne_eq] at hs hw
    simp [hostApConfigLines, List.count_cons, hs, hw, Ne.symm hs, Ne.symm hw]
  · simp [hostApConfigLines]
  · simp [hostApConfigLines]

/-- Claim C3: for every MAC address string delivered by the hardware lookup,
a fresh `_getGatewayId` call resolves with exactly
`uppercase(remove_colons(mac))` (which is what `normalizeMac` denotes), and
for a valid 6-octet colon-separated MAC the resolved identity is a
12-character string of uppercase hexadecimal characters; determinism holds
because the resolution of a fixed MAC is a pure function of it. -/
theorem getGatewayId_resolves_normalized (m : String) (h : ValidMac m) :
    (getGatewayIdRun "eth0" none (.ok (some m))).outcome =
      .resolved (jsToUpperCase (removeColons m)) ∧
    normalizeMac m = jsToUpperCase (removeColons m) ∧
    (normalizeMac m).length = 12 ∧
    (normalizeMac m).data.all isUpperHexDigit = true := by
  obtain ⟨a1,a2,b1,b2,c1,c2,d1,d2,e1,e2,f1,f2,hhex,hdata⟩ := h
  simp only [List.all_cons, List.all_nil, Bool.and_eq_true, Bool.and_true, and_true] at hhex
  obtain ⟨h1,h2,h3,h4,h5,h6,h7,h8,h9,h10,h11,h12⟩ := hhex
  have hfo : (removeColons m).data = [a1,a2,b1,b2,c1,c2,d1,d2,e1,e2,f1,f2] := by
    simp [removeColons, hdata, List.filter_cons,
      hexDigit_ne_colon h1, hexDigit_ne_colon h2, hexDigit_ne_colon h3, hexDigit_ne_colon h4,
      hexDigit_ne_colon h5, hexDigit_ne_colon h6, hexDigit_ne_colon h7, hexDigit_ne_colon h8,
      hexDigit_ne_colon h9, hexDigit_ne_colon h10, hexDigit_ne_colon h11, hexDigit_ne_colon h12]
  refine ⟨rfl, rfl, ?_, ?_⟩
  · simp [normalizeMac, jsToUpperCase, String.length, hfo]
  · simp [normalizeMac, jsToUpperCase, hfo, List.all_cons,
      hexDigit_toUpper h1, hexDigit_toUpper h2, hexDigit_toUpper h3, hexDigit_toUpper h4,
      hexDigit_toUpper h5, hexDigit_toUpper h6, hexDigit_toUpper h7, hexDigit_toUpper h8,
      hexDigit_toUpper h9, hexDigit_toUpper h10, hexDigit_toUpper h11, hexDigit_toUpper h12]

/-- Witness for the C3 theorem at the concrete MAC `aa:bb:cc:dd:ee:ff`. -/
theorem getGatewayId_resolves_normalized_witness :
    ValidMac "aa:bb:cc:dd:ee:ff" ∧
    ((getGatewayIdRun "eth0" none (.ok (some "aa:bb:cc:dd:ee:ff"))).outcome =
        .resolved (jsToUpperCase (removeColons "aa:bb:cc:dd:ee:ff")) ∧
     normalizeMac "aa:bb:cc:dd:ee:ff" = jsToUpperCase (removeColons "aa:bb:cc:dd:ee:ff") ∧
     (normalizeMac "aa:bb:cc:dd:ee:ff").length = 12 ∧
     (normalizeMac "aa:bb:cc:dd:ee:ff").data.all isUpperHexDigit = true) := by
  have hv : ValidMac "aa:bb:cc:dd:ee:ff" :=
    ⟨'a','a','b','b','c','c','d','d','e','e','f','f', by decide, by decide⟩
  exact ⟨hv, getGatewayId_resolves_normalized "aa:bb:cc:dd:ee:ff" hv⟩

/-- Claim C4: for every baseline object with a `connectorTypes` field and
every resolved identity, the object `generateGatewayAgentConfig` serializes
(with 4-space indentation, the final conjunct) copies `connectorTypes`
verbatim from the baseline, has `cloudConnectors` with the single key
`<identity>-cnc-cloud` whose `config` holds the configured gateway address as
`host`, port 1883, protocol `"mqtt"`, `account` and `gatewayname` equal to
the identity, the configured local network interface name, and an empty
`topics` field, and has `deviceConnectors` with the single key
`<identity>-cnc-gateway` whose `config` is an empty object. -/
theorem gatewayAgent_config_shape (B : List (String × JsVal)) (gid host iface : String)
    (hct : jsGet (.obj B) "connectorTypes" ≠ .jsUndefined) :
    jsGet (buildGatewayAgentConfig (.obj B) gid host iface) "connectorTypes" =
      jsGet (.obj B) "connectorTypes" ∧
    jsGet (buildGatewayAgentConfig (.obj B) gid host iface) "connectorTypes" ≠ .jsUndefined ∧
    objKeys (jsGet (buildGatewayAgentConfig (.obj B) gid host iface) "cloudConnectors") =
      [gid ++ "-cnc-cloud"] ∧
    (let cc := jsGet (jsGet (jsGet (buildGatewayAgentConfig (.obj B) gid host iface)
        "cloudConnectors") (gid ++ "-cnc-cloud")) "config"
     jsGet cc "host" = .str host ∧
     jsGet cc "port" = .num 1883 ∧
     jsGet cc "protocol" = .str "mqtt" ∧
     jsGet cc "account" = .str gid ∧
     jsGet cc "gatewayname" = .str gid ∧
     jsGet cc "networkInterface" = .str iface ∧
     jsGet cc "topics" = .str "") ∧
    objKeys (jsGet (buildGatewayAgentConfig (.obj B) gid host iface) "deviceConnectors") =
      [gid ++ "-cnc-gateway"] ∧
    jsGet (jsGet (jsGet (buildGatewayAgentConfig (.obj B) gid host iface)
        "deviceConnectors") (gid ++ "-cnc-gateway")) "config" = .obj [] ∧
    gatewayAgentPayload (.obj B) gid host iface =
      (jsonStringify jsonGap4 (buildGatewayAgentConfig (.obj B) gid host iface)).getD "" := by
  refine ⟨?_, ?_, ?_, ?_, ?_, ?_, rfl⟩
  · simp [buildGatewayAgentConfig, jsGet, jsGetFields]
  · simpa [buildGatewayAgentConfig, jsGet, jsGetFields] using hct
  · simp [buildGatewayAgentConfig, jsGet, jsGetFields, objKeys]
  · refine ⟨?_, ?_, ?_, ?_, ?_, ?_, ?_⟩ <;>
      simp [buildGatewayAgentConfig, jsGet, jsGetFields]
  · simp [buildGatewayAgentConfig, jsGet, jsGetFields, objKeys]
  · simp [buildGatewayAgentConfig, jsGet, jsGetFields]

/-- Witness for the C4 theorem at the baseline of §8 of the spec
(`connectorTypes == ["X"]`) and the identity `DEAD00112233`. -/
theorem gatewayAgent_config_shape_witness :
    jsGet (.obj [("connectorTypes", .arr [.str "X"])]) "connectorTypes" ≠ .jsUndefined ∧
    (jsGet (buildGatewayAgentConfig (.obj [("connectorTypes", .arr [.str "X"])])
        "DEAD00112233" "10.0.0.1" "eth1") "connectorTypes" =
      jsGet (.obj [("connectorTypes", .arr [.str "X"])]) "connectorTypes" ∧
    jsGet (buildGatewayAgentConfig (.obj [("connectorTypes", .arr [.str "X"])])
        "DEAD00112233" "10.0.0.1" "eth1") "connectorTypes" ≠ .jsUndefined ∧
    objKeys (jsGet (buildGatewayAgentConfig (.obj [("connectorTypes", .arr [.str "X"])])
        "DEAD00112233" "10.0.0.1" "eth1") "cloudConnectors") =
      ["DEAD00112233" ++ "-cnc-cloud"] ∧
    (let cc := jsGet (jsGet (jsGet (buildGatewayAgentConfig
        (.obj [("connectorTypes", .arr [.str "X"])]) "DEAD00112233" "10.0.0.1" "eth1")
        "cloudConnectors") ("DEAD00112233" ++ "-cnc-cloud")) "config"
     jsGet cc "host" = .str "10.0.0.1" ∧
     jsGet cc "port" = .num 1883 ∧
     jsGet cc "protocol" = .str "mqtt" ∧
     jsGet cc "account" = .str "DEAD00112233" ∧
     jsGet cc "gatewayname" = .str "DEAD00112233" ∧
     jsGet cc "networkInterface" = .str "eth1" ∧
     jsGet cc "topics" = .str "") ∧
    objKeys (jsGet (buildGatewayAgentConfig (.obj [("connectorTypes", .arr [.str "X"])])
        "DEAD00112233" "10.0.0.1" "eth1") "deviceConnectors") =
      ["DEAD00112233" ++ "-cnc-gateway"] ∧
    jsGet (jsGet (jsGet (buildGatewayAgentConfig (.obj [("connectorTypes", .arr [.str "X"])])
        "DEAD00112233" "10.0.0.1" "eth1") "deviceConnectors")
        ("DEAD00112233" ++ "-cnc-gateway")) "config" = .obj [] ∧
    gatewayAgentPayload (.obj [("connectorTypes", .arr [.str "X"])])
        "DEAD00112233" "10.0.0.1" "eth1" =
      (jsonStringify jsonGap4 (buildGatewayAgentConfig
        (.obj [("connectorTypes", .arr [.str "X"])])
        "DEAD00112233" "10.0.0.1" "eth1")).getD "") := by
  have hct : jsGet (.obj [("connectorTypes", .arr [.str "X"])]) "connectorTypes" ≠ .jsUndefined := by
    simp [jsGet, jsGetFields]
  exact ⟨hct, gatewayAgent_config_shape [("connectorTypes", .arr [.str "X"])]
    "DEAD00112233" "10.0.0.1" "eth1" hct⟩

/-- Claim C5: when the baseline file content is not valid JSON (the read
itself succeeded), `generateGatewayAgentConfig` rejects with the parse error
— a cause distinct by construction from a read error — and the write log is
empty: zero filesystem writes are performed. -/
theorem gatewayAgent_parse_failure (parse : String → Option JsVal)
    (iface content host liface : String) (cache : Option String)
    (macResult : Except String (Option String)) (cp : Option String)
    (statOk writeOk : Bool) (gid : String)
    (hid : (getGatewayIdRun iface cache macResult).outcome = .resolved gid)
    (hp : parse content = none) :
    generateGatewayAgentConfigRun parse iface cache macResult (.ok content) cp
        statOk writeOk host liface = (.rejected (.parseErr content), []) ∧
    (∀ e, JsErr.parseErr content ≠ JsErr.readErr e) := by
  constructor
  · simp [generateGatewayAgentConfigRun, hid, readExistingConfigRun, hp]
  · intro e
    simp

/-- Witness for the C5 theorem: malformed baseline content with a resolved
identity and a fully available write path, still yielding a parse rejection
and zero writes. -/
theorem gatewayAgent_parse_failure_witness :
    ((getGatewayIdRun "eth0" none (.ok (some "aa:bb:cc:dd:ee:ff"))).outcome =
        .resolved "AABBCCDDEEFF" ∧
     (fun (_ : String) => (none : Option JsVal)) "not-json" = none) ∧
    (generateGatewayAgentConfigRun (fun _ => none) "eth0" none
        (.ok (some "aa:bb:cc:dd:ee:ff")) (.ok "not-json")
        (some "/etc/gateway/agent.json") true true "10.0.0.1" "wlan0" =
      (.rejected (.parseErr "not-json"), []) ∧
     (∀ e, JsErr.parseErr "not-json" ≠ JsErr.readErr e)) := by
  have hid : (getGatewayIdRun "eth0" none (.ok (some "aa:bb:cc:dd:ee:ff"))).outcome =
      .resolved "AABBCCDDEEFF" := by decide
  exact ⟨⟨hid, rfl⟩, gatewayAgent_parse_failure (fun _ => none) "eth0" "not-json"
    "10.0.0.1" "wlan0" none (.ok (some "aa:bb:cc:dd:ee:ff"))
    (some "/etc/gateway/agent.json") true true "AABBCCDDEEFF" hid rfl⟩

/-- Claim C6: for every target, when path resolution yields the unsupported
sentinel or the parent-directory stat fails, `_writeConfig` performs no
`fs.writeFile` invocation at all — the write log is empty, so no file is
created, truncated, or modified. -/
theorem writeConfig_gated_on_precondition (pc : PathConfig) (platform target : String)
    (statOk writeOk : Bool) (data : String)
    (h : getConfigPath pc platform target = none ∨ statOk = false) :
    (writeConfigRun (getConfigPath pc platform target) statOk writeOk data).2 = [] := by
  rcases h with h | h
  · simp [writeConfigRun, ensureConfigRun, h]
  · subst h
    cases hcp : getConfigPath pc platform target <;>
      simp [writeConfigRun, ensureConfigRun]

/-- Witness for the C6 theorem: an unsupported platform, hence an unresolved
path and an empty write log. -/
theorem writeConfig_gated_witness :
    (getConfigPath ⟨"/etc/agent.json", "/tmp/hostapd.conf"⟩ "win32" "hostapd_conf" = none ∨
      (true : Bool) = false) ∧
    (writeConfigRun (getConfigPath ⟨"/etc/agent.json", "/tmp/hostapd.conf"⟩ "win32"
        "hostapd_conf") true true "data").2 = [] := by
  have h : getConfigPath ⟨"/etc/agent.json", "/tmp/hostapd.conf"⟩ "win32" "hostapd_conf" =
      none ∨ (true : Bool) = false := Or.inl (by decide)
  exact ⟨h, writeConfig_gated_on_precondition _ _ _ _ _ _ h⟩

/-- Claim C7 counterexample: the hardware lookup can deliver the empty string,
whose normalization is the empty string; the first call then resolves
successfully and stores `""` in the cache, but `if (this._gatewayId)` is a JS
truthiness test, so the next call performs the hardware lookup again — a
later call after a successful resolution that does not return the cached
identity immediately. -/
theorem getGatewayId_empty_identity_refetches :
    (getGatewayIdRun "eth0" none (.ok (some ""))).outcome = .resolved "" ∧
    (getGatewayIdRun "eth0" none (.ok (some ""))).cache = some "" ∧
    (getGatewayIdRun "eth0" (some "") (.ok (some "aa:bb:cc:dd:ee:ff"))).lookedUp = true := by
  decide

/-- Claim C7 as amended: if `_getGatewayId` has previously resolved
successfully with a nonempty identity, every later call returns the cached
identity immediately without performing a hardware lookup; and when a call
starting from the empty cache fails (hardware lookup error or normalization
exception), nothing is cached — and any call with an empty cache performs the
hardware lookup. -/
theorem getGatewayId_cache_semantics (iface s : String) (hs : s ≠ "")
    (mr mr2 : Except String (Option String)) :
    getGatewayIdRun iface (some s) mr = ⟨.resolved s, some s, false⟩ ∧
    (getGatewayIdRun iface none mr2).lookedUp = true ∧
    (∀ e, (getGatewayIdRun iface none mr2).outcome = .rejected e →
      (getGatewayIdRun iface none mr2).cache = none) := by
  refine ⟨?_, ?_, ?_⟩
  · simp [getGatewayIdRun, bne_iff_ne, hs]
  · cases mr2 with
    | error e => rfl
    | ok v => cases v <;> rfl
  · intro e he
    cases mr2 with
    | error e2 => rfl
    | ok v =>
      cases v with
      | none => rfl
      | some m => simp [getGatewayIdRun, getGatewayIdLookup] at he

/-- Witness for the C7 amended theorem: a nonempty cached identity is
returned without lookup; a failing fresh call caches nothing. -/
theorem getGatewayId_cache_semantics_witness :
    ("AABBCCDDEEFF" : String) ≠ "" ∧
    (getGatewayIdRun "eth0" (some "AABBCCDDEEFF") (.ok (some "11:22:33:44:55:66")) =
        ⟨.resolved "AABBCCDDEEFF", some "AABBCCDDEEFF", false⟩ ∧
     (getGatewayIdRun "eth0" none (.error "lookup failed")).lookedUp = true ∧
     (∀ e, (getGatewayIdRun "eth0" none (.error "lookup failed")).outcome = .rejected e →
       (getGatewayIdRun "eth0" none (.error "lookup failed")).cache = none)) := by
  have hs : ("AABBCCDDEEFF" : String) ≠ "" := by decide
  exact ⟨hs, getGatewayId_cache_semantics "eth0" "AABBCCDDEEFF" hs _ _⟩

/-- Claim C8 counterexample: with the configured gateway-agent path equal to
the empty string, target `gateway_agent_conf` on platform `linux` — a known
target with a mapping on a supported platform — resolves to the sentinel
instead of the configured path, because the source's `if (!configInfo)` is a
truthiness test that treats the empty path string as unmapped. -/
theorem getConfigPath_empty_configured_path_refutes :
    getConfigPath ⟨"", "/tmp/hostapd.conf"⟩ "linux" "gateway_agent_conf" = none ∧
    getConfigPath ⟨"", "/tmp/hostapd.conf"⟩ "linux" "gateway_agent_conf" ≠
      some (PathConfig.cfgConfigFile ⟨"", "/tmp/hostapd.conf"⟩) := by
  decide

/-- Claim C8 as amended: `_getConfigPath` returns the sentinel when the
target name is unknown, when the platform has no mapping for a known target,
and also when the configured entry for the pair is the empty string; provided
the configured entries are nonempty it returns exactly the configured path
for each known (target, platform) pair — in particular the literal
`/etc/hostapd/hostapd.conf` for `hostapd_conf` on `linux`. Resolution is a
pure lookup (a Lean function of its arguments) and touches no filesystem. -/
theorem getConfigPath_table (pc : PathConfig) (target platform : String)
    (h1 : pc.cfgConfigFile ≠ "") (h2 : pc.darwinHostapd ≠ "") :
    (target ≠ "hostapd_conf" → target ≠ "gateway_agent_conf" →
      getConfigPath pc platform target = none) ∧
    (platform ≠ "linux" → platform ≠ "darwin" →
      getConfigPath pc platform target = none) ∧
    getConfigPath pc "linux" "hostapd_conf" = some "/etc/hostapd/hostapd.conf" ∧
    getConfigPath pc "darwin" "hostapd_conf" = some pc.darwinHostapd ∧
    getConfigPath pc "linux" "gateway_agent_conf" = some pc.cfgConfigFile ∧
    getConfigPath pc "darwin" "gateway_agent_conf" = some pc.cfgConfigFile := by
  refine ⟨?_, ?_, ?_, ?_, ?_, ?_⟩
  · intro ht1 ht2
    have f1 : ("hostapd_conf" == target) = false := beq_eq_false_iff_ne.mpr (Ne.symm ht1)
    have f2 : ("gateway_agent_conf" == target) = false := beq_eq_false_iff_ne.mpr (Ne.symm ht2)
    simp [getConfigPath, CONFIG_PATHS, List.find?, f1, f2]
  · intro hp1 hp2
    have f1 : ("linux" == platform) = false := beq_eq_false_iff_ne.mpr (Ne.symm hp1)
    have f2 : ("darwin" == platform) = false := beq_eq_false_iff_ne.mpr (Ne.symm hp2)
    by_cases ht1 : target = "hostapd_conf"
    · subst ht1
      simp [getConfigPath, CONFIG_PATHS, List.find?, f1, f2]
    · by_cases ht2 : target = "gateway_agent_conf"
      · subst ht2
        simp [getConfigPath, CONFIG_PATHS, List.find?, f1, f2]
      · have g1 : ("hostapd_conf" == target) = false := beq_eq_false_iff_ne.mpr (Ne.symm ht1)
        have g2 : ("gateway_agent_conf" == target) = false :=
          beq_eq_false_iff_ne.mpr (Ne.symm ht2)
        simp [getConfigPath, CONFIG_PATHS, List.find?, g1, g2]
  · simp [getConfigPath, CONFIG_PATHS, List.find?]
  · simp [getConfigPath, CONFIG_PATHS, List.find?, h2]
  · simp [getConfigPath, CONFIG_PATHS, List.find?, h1]
  · simp [getConfigPath, CONFIG_PATHS, List.find?, h1]

/-- Witness for the C8 amended theorem at concrete nonempty configured paths,
an unknown target name, and the supported platforms. -/
theorem getConfigPath_table_witness :
    ("/etc/gateway/agent.json" : String) ≠ "" ∧ ("/tmp/hostapd.conf" : String) ≠ "" ∧
    ((("freebsd" : String) ≠ "hostapd_conf" → ("freebsd" : String) ≠ "gateway_agent_conf" →
        getConfigPath ⟨"/etc/gateway/agent.json", "/tmp/hostapd.conf"⟩ "linux" "freebsd" =
          none) ∧
     (("linux" : String) ≠ "linux" → ("linux" : String) ≠ "darwin" →
        getConfigPath ⟨"/etc/gateway/agent.json", "/tmp/hostapd.conf"⟩ "linux" "freebsd" =
          none) ∧
     getConfigPath ⟨"/etc/gateway/agent.json", "/tmp/hostapd.conf"⟩ "linux" "hostapd_conf" =
        some "/etc/hostapd/hostapd.conf" ∧
     getConfigPath ⟨"/etc/gateway/agent.json", "/tmp/hostapd.conf"⟩ "darwin" "hostapd_conf" =
        some (PathConfig.darwinHostapd ⟨"/etc/gateway/agent.json", "/tmp/hostapd.conf"⟩) ∧
     getConfigPath ⟨"/etc/gateway/agent.json", "/tmp/hostapd.conf"⟩ "linux"
        "gateway_agent_conf" =
        some (PathConfig.cfgConfigFile ⟨"/etc/gateway/agent.json", "/tmp/hostapd.conf"⟩) ∧
     getConfigPath ⟨"/etc/gateway/agent.json", "/tmp/hostapd.conf"⟩ "darwin"
        "gateway_agent_conf" =
        some (PathConfig.cfgConfigFile ⟨"/etc/gateway/agent.json", "/tmp/hostapd.conf"⟩)) := by
  have ha : ("/etc/gateway/agent.json" : String) ≠ "" := by decide
  have hb : ("/tmp/hostapd.conf" : String) ≠ "" := by decide
  exact ⟨ha, hb, getConfigPath_table ⟨"/etc/gateway/agent.json", "/tmp/hostapd.conf"⟩
    "freebsd" "linux" ha hb⟩

/-- Claim C9: the constructor raises synchronously — yielding an error and no
instance — whenever the logger argument is missing (`undefined`) or not an
object, or the configured local network gateway address is missing
(`undefined`) or the empty string. -/
theorem configBuilder_rejects_invalid_input (logger gatewayAddr : JsVal) (platform : String)
    (h : logger = .jsUndefined ∨ jsTypeof logger ≠ "object" ∨
         gatewayAddr = .jsUndefined ∨ gatewayAddr = .str "") :
    ∃ msg, configBuilderNew logger gatewayAddr platform = .error msg := by
  rcases h with rfl | h | rfl | rfl
  · exact ⟨_, rfl⟩
  · have hb : (jsTypeof logger != "object") = true := by
      simpa [bne_iff_ne] using h
    simp [configBuilderNew, hb]
  · by_cases hl : (!(jsTruthy logger) || (jsTypeof logger != "object")) = true
    · simp [configBuilderNew, hl]
    · have hl2 : (!(jsTruthy logger) || (jsTypeof logger != "object")) = false := by
        simpa using hl
      simp [configBuilderNew, hl2]
  · by_cases hl : (!(jsTruthy logger) || (jsTypeof logger != "object")) = true
    · simp [configBuilderNew, hl]
    · have hl2 : (!(jsTruthy logger) || (jsTypeof logger != "object")) = false := by
        simpa using hl
      simp [configBuilderNew, hl2]

/-- Witness for the C9 theorem: a missing logger makes construction fail. -/
theorem configBuilder_rejects_invalid_input_witness :
    (JsVal.jsUndefined = JsVal.jsUndefined ∨ jsTypeof JsVal.jsUndefined ≠ "object" ∨
      JsVal.str "10.0.0.1" = JsVal.jsUndefined ∨ JsVal.str "10.0.0.1" = JsVal.str "") ∧
    (∃ msg, configBuilderNew JsVal.jsUndefined (JsVal.str "10.0.0.1") "linux" = .error msg) := by
  have h : JsVal.jsUndefined = JsVal.jsUndefined ∨ jsTypeof JsVal.jsUndefined ≠ "object" ∨
      JsVal.str "10.0.0.1" = JsVal.jsUndefined ∨ JsVal.str "10.0.0.1" = JsVal.str "" := Or.inl rfl
  exact ⟨h, configBuilder_rejects_invalid_input _ _ "linux" h⟩

/-- Claim C10: when the parsed baseline is a JSON object without a
`connectorTypes` field, generation proceeds without error (the returned
promise resolves), and the serialized output is exactly the serialization of
the object lacking the `connectorTypes` key: `JSON.stringify` omits the
`undefined`-valued property rather than failing. -/
theorem gatewayAgent_missing_connectorTypes (parse : String → Option JsVal)
    (B : List (String × JsVal)) (iface content host liface m gid : String)
    (cp : Option String) (statOk writeOk : Bool)
    (hb : jsGet (.obj B) "connectorTypes" = .jsUndefined)
    (hp : parse content = some (.obj B)) :
    (generateGatewayAgentConfigRun parse iface none (.ok (some m)) (.ok content) cp
        statOk writeOk host liface).1 = .resolved () ∧
    gatewayAgentPayload (.obj B) gid host liface =
      (jsonStringify jsonGap4 (.obj
        [("deviceConnectors", .obj
            [(gid ++ "-cnc-gateway", .obj
                [("type", .str "CncGateway"), ("config", .obj [])])]),
         ("cloudConnectors", .obj
            [(gid ++ "-cnc-cloud", .obj
                [("type", .str "CncCloud"),
                 ("config", .obj
                    [("host", .str host),
                     ("port", .num 1883),
                     ("protocol", .str "mqtt"),
                     ("account", .str gid),
                     ("networkInterface", .str liface),
                     ("gatewayname", .str gid),
                     ("topics", .str "")])])])])).getD "" := by
  constructor
  · simp [generateGatewayAgentConfigRun, getGatewayIdRun, getGatewayIdLookup,
      readExistingConfigRun, hp]
  · simp [gatewayAgentPayload, buildGatewayAgentConfig, hb, jsonStringify,
      jsonRender, jsonRenderObj, jsonRenderItems]

/-- Witness for the C10 theorem at a baseline object with no `connectorTypes`
key. -/
theorem gatewayAgent_missing_connectorTypes_witness :
    (jsGet (.obj [("foo", .num 1)]) "connectorTypes" = .jsUndefined ∧
     (fun (_ : String) => some (JsVal.obj [("foo", .num 1)])) "content" =
       some (.obj [("foo", .num 1)])) ∧
    ((generateGatewayAgentConfigRun (fun _ => some (.obj [("foo", .num 1)])) "eth0" none
        (.ok (some "aa:bb:cc:dd:ee:ff")) (.ok "content") (some "/etc/gateway/agent.json")
        true true "10.0.0.1" "wlan0").1 = .resolved () ∧
     gatewayAgentPayload (.obj [("foo", .num 1)]) "AABBCCDDEEFF" "10.0.0.1" "wlan0" =
      (jsonStringify jsonGap4 (.obj
        [("deviceConnectors", .obj
            [("AABBCCDDEEFF" ++ "-cnc-gateway", .obj
                [("type", .str "CncGateway"), ("config", .obj [])])]),
         ("cloudConnectors", .obj
            [("AABBCCDDEEFF" ++ "-cnc-cloud", .obj
                [("type", .str "CncCloud"),
                 ("config", .obj
                    [("host", .str "10.0.0.1"),
                     ("port", .num 1883),
                     ("protocol", .str "mqtt"),
                     ("account", .str "AABBCCDDEEFF"),
                     ("networkInterface", .str "wlan0"),
                     ("gatewayname", .str "AABBCCDDEEFF"),
                     ("topics", .str "")])])])])).getD "") := by
  have hb : jsGet (.obj [("foo", .num 1)]) "connectorTypes" = .jsUndefined := by
    simp [jsGet, jsGetFields]
  exact ⟨⟨hb, rfl⟩, gatewayAgent_missing_connectorTypes (fun _ => some (.obj [("foo", .num 1)]))
    [("foo", .num 1)] "eth0" "content" "10.0.0.1" "wlan0" "aa:bb:cc:dd:ee:ff" "AABBCCDDEEFF"
    (some "/etc/gateway/agent.json") true true hb rfl⟩
